import Mathlib

/-!
Verification of the payment-to-entitlement reconciliation subsystem of the
Sellr backend (NestJS/Prisma).  The definitions below are a shallow embedding
of the TypeScript source:

* `PaystackService.verifySignature`  (src/src/app.module.ts, lines 87-95)
* `PaymentController.webhook`        (src/src/payment/payment.controller.ts, lines 32-56)
* `SlotService.purchaseSlots`, `creditSlots`, `getUserSlots`, `getPaymentStatus`
                                     (src/src/slot/slot.service.ts)
* `SlotController` routes            (slot.controller.ts)

`PaymentService.createPayment` and `PaymentService.handleWebhook` are not part
of the available sources (only their callers are); they are modelled from the
design document, section 4.4, and are marked as such in their doc comments.

Database rows (Prisma `User` and `Payment` models) are embedded as Lean
structures; the database is an explicit `Store` value threaded through every
operation.  NestJS exceptions are `Except` errors; an operation returns its
result together with the store that the database holds afterwards (thrown
validation errors leave the store untouched, which the embedding makes
explicit by returning the input store).  Monetary amounts and slot counts are
JS numbers restricted to the integers, which is faithful for every property
considered here (all guards are comparisons with 0).
-/

deriving instance DecidableEq for Except

namespace Sellr

/-- A row of the Prisma `User` model, restricted to the fields this subsystem
reads or writes: `availableSlots`, `usedSlots` (entitlement counters) and the
soft-deletion flag `isDeleted`. -/
structure User where
  id : Int
  availableSlots : Int
  usedSlots : Int
  isDeleted : Bool
deriving Repr, DecidableEq

/-- A row of the Prisma `Payment` model, restricted to the fields the
reconciliation engine uses.  `reference` is the provider reference
(idempotency key), `status` is one of "PENDING" / "SUCCESS" / "FAILED" as a
plain string (as in the schema), `slotsGranted` is the number of entitlement
units the payment requests. -/
structure Payment where
  id : Int
  userId : Int
  reference : String
  status : String
  amount : Int
  slotsGranted : Int
deriving Repr, DecidableEq

/-- The durable state: the user table, the payment table, plus an
instrumentation counter `gatewayCalls` recording how many times the provider
gateway (Paystack initialize) has been invoked, and `nextId` used to mint
fresh payment ids / provider references. -/
structure Store where
  users : List User
  payments : List Payment
  gatewayCalls : Nat
  nextId : Nat
deriving Repr, DecidableEq

/-- JS truthiness of a `string | null | undefined` value: `null`, `undefined`
and the empty string are falsy.  `none` stands for null/undefined. -/
def strTruthy : Option String → Bool
  | none => false
  | some s => !(s == "")

/-- PaystackService.verifySignature (src/src/app.module.ts lines 87-95):

    if (!this.secret) return false;
    if (!signatureHeader) return false;
    const hash = crypto.createHmac("sha512", this.secret).update(rawBody).digest("hex");
    return hash === signatureHeader;

The HMAC-SHA512 computation itself is abstracted as a parameter
`hmac : secret → body → hex digest`; the control flow and the `===`
comparison are embedded exactly.  The function is total: it never throws. -/
def verifySignature (hmac : String → String → String)
    (secret : Option String) (rawBody : String) (signatureHeader : Option String) : Bool :=
  if !(strTruthy secret) then false
  else if !(strTruthy signatureHeader) then false
  else hmac (secret.getD "") rawBody == signatureHeader.getD ""

/-- Specification-side description of `verifyNotificationSignature`, written
from the design document's words (section 4.1): false on missing secret,
false on missing signature header, otherwise true exactly when the HMAC of
the raw body under the secret equals the header.  A missing value is `none`
or the empty string (an unset environment variable and an absent header both
reach the code as falsy values). -/
def verifySignatureSpec (hmac : String → String → String)
    (secret : Option String) (rawBody : String) (signatureHeader : Option String) : Bool :=
  match secret, signatureHeader with
  | none, _ => false
  | some _, none => false
  | some s, some sig =>
      if s == "" then false
      else if sig == "" then false
      else hmac s rawBody == sig

/-- The body string the webhook handler feeds to the HMAC
(src/src/payment/payment.controller.ts line 36):

    const rawBody = (req as any).rawBody ?? JSON.stringify(req.body);

`req.rawBody` is only populated when the Nest application is created with
raw-body capture enabled; src/src/main.ts calls `NestFactory.create(AppModule)`
without that option, so in this application the left operand is undefined and
the fallback `JSON.stringify(req.body)` — a re-serialization of the parsed
body, not the raw received bytes — is what gets hashed. -/
def webhookHashedBody (reqRawBody : Option String) (stringifiedBody : String) : String :=
  reqRawBody.getD stringifiedBody

/-- An inbound webhook HTTP request, with the pieces the controller reads:
the raw-body capture (absent in this application), `JSON.stringify(req.body)`,
the `payload.data.reference ?? payload.data.id` extraction, the
`data.status ?? payload.status` extraction, and the
`x-paystack-signature` header. -/
structure WebhookReq where
  rawBody : Option String
  stringifiedBody : String
  reference : Option String
  status : Option String
  signature : Option String
deriving Repr, DecidableEq

/-- An internal failure thrown while the payment service processes a webhook
(for example a database error); the controller's try/catch observes it. -/
inductive WebhookError
  | internal
deriving Repr, DecidableEq

/-- The acknowledgment record the reconcile path produces: `ok` (always true
on the modelled path), `applied` (whether a PENDING row was finalized by this
call), `unknownReference` (no such payment, logged, still acknowledged). -/
structure ReconcileResult where
  ok : Bool
  applied : Bool
  unknownReference : Bool
deriving Repr, DecidableEq

/-- PaymentController.webhook (src/src/payment/payment.controller.ts lines
34-56), parameterized by the HMAC function, the configured secret, and the
payment-service handler (the real `handleWebhook` may throw, which the
source wraps in try/catch):

* compute `rawBody` per line 36;
* verify the signature; on failure respond 400 and stop;
* otherwise call the handler with the extracted reference and status
  (status defaults to "unknown" per line 49);
* respond 200 with the handler result, or 500 if the handler threw.

The value returned is the HTTP status code paired with the store after the
request. -/
def webhookEndpoint (hmac : String → String → String) (secret : Option String)
    (handler : Store → Option String → String → Except WebhookError (ReconcileResult × Store))
    (st : Store) (req : WebhookReq) : Nat × Store :=
  let raw := webhookHashedBody req.rawBody req.stringifiedBody
  if !(verifySignature hmac secret raw req.signature) then
    (400, st)
  else
    match handler st req.reference (req.status.getD "unknown") with
    | .ok (_res, st') => (200, st')
    | .error _ => (500, st)

/-- A concrete stand-in HMAC used by witnesses and counterexamples (the
claims hold for every hmac function; witnesses need one that computes). -/
def hmac0 : String → String → String :=
  fun s b => "mac[" ++ s ++ "|" ++ b ++ "]"

/-- Errors thrown by SlotService / surfaced by the modelled payment service:
`badRequest` is Nest's BadRequestException (HTTP 400, the InvalidRequest
class), `notFound` is NotFoundException (HTTP 404, UserNotFound / payment not
found).  Message strings are abbreviated tags of the source's messages. -/
inductive SlotError
  | badRequest (msg : String)
  | notFound (msg : String)
deriving Repr, DecidableEq

/-- The record `PaymentService.createPayment` resolves with, as observed at
its call site in SlotService.purchaseSlots (fields `success`, `error`,
`providerReference`) and in the design document (`authorizationUrl`). -/
structure CreatePaymentResult where
  success : Bool
  error : Option String
  providerReference : Option String
  authorizationUrl : Option String
deriving Repr, DecidableEq

/-- The metadata object purchaseSlots passes to createPayment
(slot.service.ts line 50). -/
structure PaymentMetadata where
  provider : String
  slotsGranted : Int
  paymentType : String
deriving Repr, DecidableEq

/-- Modelled from the spec: `PaymentService.createPayment` is not among the
available sources (only its callers, PaymentController.create and
SlotService.purchaseSlots, are).  Per design document section 4.4 it
validates `amount > 0` and `unitsRequested > 0` (InvalidRequest otherwise),
verifies the user exists and is active, i.e. not soft-deleted (UserNotFound
otherwise), generates a fresh unique provider reference, calls the gateway
adapter to initialize the hosted transaction, inserts a PENDING PaymentIntent
row on adapter success, and never credits entitlements on this path.
Failures are result variants (`success = false` plus an error tag), as the
call site `result.success` / `result.error` shows.  The gateway call is
modelled as incrementing the `gatewayCalls` counter and succeeding. -/
def createPayment (st : Store) (userId : Int) (amount : Int) (meta : PaymentMetadata) :
    CreatePaymentResult × Store :=
  if amount ≤ 0 || meta.slotsGranted ≤ 0 then
    ({ success := false, error := some "InvalidRequest",
       providerReference := none, authorizationUrl := none }, st)
  else
    match st.users.find? (fun u => u.id == userId) with
    | none =>
        ({ success := false, error := some "UserNotFound",
           providerReference := none, authorizationUrl := none }, st)
    | some u =>
        if u.isDeleted then
          ({ success := false, error := some "UserNotFound",
             providerReference := none, authorizationUrl := none }, st)
        else
          let ref := "ref-" ++ toString st.nextId
          let st1 : Store := { st with gatewayCalls := st.gatewayCalls + 1 }
          let pay : Payment :=
            { id := Int.ofNat st.nextId, userId := userId, reference := ref,
              status := "PENDING", amount := amount, slotsGranted := meta.slotsGranted }
          let st2 : Store := { st1 with payments := st1.payments ++ [pay], nextId := st1.nextId + 1 }
          ({ success := true, error := none,
             providerReference := some ref,
             authorizationUrl := some ("https://paystack/redirect/" ++ ref) }, st2)

/-- SlotService.purchaseSlots (src/src/slot/slot.service.ts lines 15-68):
validates `userId > 0` and `slots > 0` (BadRequestException otherwise, before
anything else runs), looks the user up by id alone — `prisma.user.findUnique
(\x7b where: \x7b id: userId \x7d \x7d)`, with no isDeleted filter —
(NotFoundException when absent), computes `amount = slots * 1`, delegates to
createPayment with paystack slot metadata, and wraps a failed creation result
in a BadRequestException.  It performs no write of its own: the comment at
lines 62-66 states crediting is deferred to the webhook handler. -/
def purchaseSlots (st : Store) (userId : Int) (slots : Int) :
    Except SlotError CreatePaymentResult × Store :=
  if userId ≤ 0 then (.error (.badRequest "Invalid userId"), st)
  else if slots ≤ 0 then (.error (.badRequest "Invalid slots"), st)
  else
    match st.users.find? (fun u => u.id == userId) with
    | none => (.error (.notFound "User not found"), st)
    | some _user =>
        let amount := slots * 1
        let meta : PaymentMetadata :=
          { provider := "paystack", slotsGranted := slots, paymentType := "SLOT" }
        let res := createPayment st userId amount meta
        if res.1.success then (.ok res.1, res.2)
        else (.error (.badRequest "Failed to create payment"), res.2)

/-- The per-user counter update performed by `prisma.user.update` with
`availableSlots: \x7b increment: slots \x7d` (slot.service.ts lines 79-84):
every row whose id matches gets its availableSlots incremented (ids are
unique in the real database; the embedding does not depend on that). -/
def creditUnits (users : List User) (uid : Int) (n : Int) : List User :=
  users.map fun u => if u.id == uid then { u with availableSlots := u.availableSlots + n } else u

/-- SlotService.creditSlots (src/src/slot/slot.service.ts lines 73-88): the
admin/test path that directly increments a user's availableSlots.  Rejects
`slots ≤ 0` (BadRequestException), rejects an unknown user
(NotFoundException), otherwise increments availableSlots by `slots` and
returns the updated row.  No payment row is read, written or required. -/
def creditSlots (st : Store) (userId : Int) (slots : Int) :
    Except SlotError User × Store :=
  if slots ≤ 0 then (.error (.badRequest "slots must be a positive integer"), st)
  else
    match st.users.find? (fun u => u.id == userId) with
    | none => (.error (.notFound "User not found"), st)
    | some u =>
        let updated : User := { u with availableSlots := u.availableSlots + slots }
        (.ok updated, { st with users := creditUnits st.users userId slots })

/-- JS `String.prototype.startsWith` on character lists (auxiliary). -/
def startsWithChars : List Char → List Char → Bool
  | _, [] => true
  | [], _ :: _ => false
  | a :: as, b :: bs => a == b && startsWithChars as bs

/-- JS `String.prototype.includes` on character lists (auxiliary). -/
def jsIncludesAux : List Char → List Char → Bool
  | [], pat => pat.isEmpty
  | a :: rest, pat => startsWithChars (a :: rest) pat || jsIncludesAux rest pat

/-- JS `s.includes(pat)`: substring containment. -/
def jsIncludes (s pat : String) : Bool :=
  jsIncludesAux s.toList pat.toList

/-- JS `s.toLowerCase()` (ASCII, which covers the status vocabulary). -/
def jsToLower (s : String) : String :=
  ⟨s.data.map Char.toLower⟩

/-- The object SlotService.getPaymentStatus resolves with: the selected
payment columns spread together with the three derived flags
(slot.service.ts lines 117-122). -/
structure PaymentStatusView where
  id : Int
  status : String
  amount : Int
  slotsGranted : Int
  isCompleted : Bool
  isPending : Bool
  isFailed : Bool
deriving Repr, DecidableEq

/-- SlotService.getPaymentStatus (src/src/slot/slot.service.ts lines 99-123):
looks the payment up by id (NotFoundException when absent) and returns it
with `isCompleted = status.toLowerCase().includes("success")`,
`isPending = status.toLowerCase() === "pending"`,
`isFailed = status.toLowerCase().includes("fail")`. -/
def getPaymentStatus (st : Store) (paymentId : Int) : Except SlotError PaymentStatusView :=
  match st.payments.find? (fun p => p.id == paymentId) with
  | none => .error (.notFound "Payment not found")
  | some p =>
      .ok { id := p.id, status := p.status, amount := p.amount,
            slotsGranted := p.slotsGranted,
            isCompleted := jsIncludes (jsToLower p.status) "success",
            isPending := jsToLower p.status == "pending",
            isFailed := jsIncludes (jsToLower p.status) "fail" }

/-- Modelled from the spec: status normalization inside
`PaymentService.handleWebhook` (not among the available sources).  Design
document section 4.4 step 1: normalize the provider-reported status to
\x7bSUCCESS, FAILED\x7d; anything else is not-yet-final and ignored.
Paystack reports final statuses as "success" / "failed" on the wire. -/
def normalizeStatus (s : String) : Option String :=
  if s == "success" then some "SUCCESS"
  else if s == "failed" then some "FAILED"
  else none

/-- Modelled from the spec: `PaymentService.handleWebhook` / `reconcile` is
not among the available sources (only its caller PaymentController.webhook
is).  Design document section 4.4: normalize the reported status (non-final
reports are ignored); look the payment up by provider reference (an unknown
or missing reference is logged and acknowledged as success, not an error);
when the row is still PENDING, atomically set it to the target status and,
exactly when the target is SUCCESS, credit the owner's availableSlots by the
payment's slotsGranted; when the row is already terminal, acknowledge with
`applied = false` and change nothing.  The modelled operation never fails;
the `Except` in its type is the controller's view, which must also absorb
thrown infrastructure errors. -/
def handleWebhook (st : Store) (ref? : Option String) (reported : String) :
    Except WebhookError (ReconcileResult × Store) :=
  match ref? with
  | none => .ok ({ ok := true, applied := false, unknownReference := true }, st)
  | some ref =>
    match normalizeStatus reported with
    | none => .ok ({ ok := true, applied := false, unknownReference := false }, st)
    | some target =>
      match st.payments.find? (fun p => p.reference == ref) with
      | none => .ok ({ ok := true, applied := false, unknownReference := true }, st)
      | some p =>
          if p.status == "PENDING" then
            let payments2 := st.payments.map fun q =>
              if q.reference == ref then { q with status := target } else q
            let users2 := if target == "SUCCESS" then creditUnits st.users p.userId p.slotsGranted else st.users
            .ok ({ ok := true, applied := true, unknownReference := false },
                 { st with payments := payments2, users := users2 })
          else
            .ok ({ ok := true, applied := false, unknownReference := false }, st)

/-- One webhook-driven reconcile of `ref` with reported status "success"
(the provider retry unit): the store after `handleWebhook`. -/
def stepSuccess (ref : String) (st : Store) : Store :=
  match handleWebhook st (some ref) "success" with
  | .ok (_, st') => st'
  | .error _ => st

/-- N successive deliveries of the same success notification. -/
def iterateSuccess (ref : String) : Nat → Store → Store
  | 0, st => st
  | n + 1, st => iterateSuccess ref n (stepSuccess ref st)

/-- One request-level operation of this subsystem, as exposed by its HTTP
surface: slot purchase (`POST /slots/purchase`), direct admin credit
(`POST /slots/credit`), a provider webhook (`POST /payments/webhook`, which
runs the full controller including the signature gate, with the modelled
payment service installed), direct payment creation (`POST /payments`), and
the two reads. -/
inductive SubsysOp
  | purchase (userId slots : Int)
  | credit (userId slots : Int)
  | webhook (req : WebhookReq)
  | createPay (userId amount : Int) (meta : PaymentMetadata)
  | readSlots (userId : Int)
  | readPaymentStatus (paymentId : Int)

/-- The store after executing one operation (reads leave it unchanged). -/
def applyOp (hmac : String → String → String) (secret : Option String)
    (st : Store) : SubsysOp → Store
  | .purchase u s => (purchaseSlots st u s).2
  | .credit u s => (creditSlots st u s).2
  | .webhook req => (webhookEndpoint hmac secret handleWebhook st req).2
  | .createPay u a m => (createPayment st u a m).2
  | .readSlots _ => st
  | .readPaymentStatus _ => st

/-! Concrete fixtures used by witnesses and counterexamples. -/

/-- An empty store. -/
def stEmpty : Store := { users := [], payments := [], gatewayCalls := 0, nextId := 0 }

/-- A live user with 5 available and 0 used slots (fixture). -/
def user1 : User := { id := 1, availableSlots := 5, usedSlots := 0, isDeleted := false }

/-- A store with one live user who has 5 available and 0 used slots. -/
def stOneUser : Store :=
  { users := [user1], payments := [], gatewayCalls := 0, nextId := 0 }

/-- A store with one soft-deleted user (isDeleted = true). -/
def stDeletedUser : Store :=
  { users := [{ id := 3, availableSlots := 0, usedSlots := 0, isDeleted := true }],
    payments := [], gatewayCalls := 0, nextId := 0 }

/-- A store with one live user (id 7, no slots yet) and no payments. -/
def stNoPayments : Store :=
  { users := [{ id := 7, availableSlots := 0, usedSlots := 0, isDeleted := false }],
    payments := [], gatewayCalls := 0, nextId := 0 }

/-- A store holding a PENDING payment "R1" of 2 slots for user 1
(who currently has 5 available slots). -/
def stPending : Store :=
  { users := [{ id := 1, availableSlots := 5, usedSlots := 0, isDeleted := false }],
    payments := [{ id := 0, userId := 1, reference := "R1", status := "PENDING",
                   amount := 2, slotsGranted := 2 }],
    gatewayCalls := 1, nextId := 1 }

/-- The store `stPending` after its payment "R1" settles successfully: the
row is SUCCESS and user 1 holds 5 + 2 = 7 available slots. -/
def stSettled : Store :=
  { users := [{ id := 1, availableSlots := 7, usedSlots := 0, isDeleted := false }],
    payments := [{ id := 0, userId := 1, reference := "R1", status := "SUCCESS",
                   amount := 2, slotsGranted := 2 }],
    gatewayCalls := 1, nextId := 1 }

/-- The slot-purchase metadata with one slot (fixture). -/
def metaOne : PaymentMetadata :=
  { provider := "paystack", slotsGranted := 1, paymentType := "SLOT" }

/-- Whether a slot-service outcome is the UserNotFound rejection
(Nest NotFoundException, HTTP 404). -/
def isUserNotFoundErr {α : Type} : Except SlotError α → Bool
  | .error (.notFound _) => true
  | _ => false

/-- A webhook request with no signature header at all. -/
def reqNoSig : WebhookReq :=
  { rawBody := some "BODY", stringifiedBody := "BODY", reference := some "R1",
    status := some "success", signature := none }

/-- A correctly signed webhook request (under `hmac0` and secret "sek")
reporting success for reference "R1". -/
def reqSigned : WebhookReq :=
  { rawBody := some "BODY", stringifiedBody := "BODY", reference := some "R1",
    status := some "success", signature := some (hmac0 "sek" "BODY") }

/-- A handler standing for a payment service whose processing throws an
internal error (for example, the database is unreachable mid-webhook). -/
def throwingHandler : Store → Option String → String → Except WebhookError (ReconcileResult × Store) :=
  fun _ _ _ => .error .internal

/-! ## Helper lemmas (shared by several claim theorems) -/

/-- Mapping an element-wise function that does not change a predicate
commutes with `find?`. -/
theorem find?_map_pred_stable {α : Type} (f : α → α) (p : α → Bool) (l : List α)
    (hp : ∀ a, p (f a) = p a) :
    (l.map f).find? p = (l.find? p).map f := by
  rw [List.find?_map]
  have hpf : p ∘ f = p := funext hp
  rw [hpf]

/-- Looking a user up after a counter credit finds the image of the user
found before (the credit function does not change ids). -/
theorem find?_creditUnits (users : List User) (uidc n uid : Int) :
    (creditUnits users uidc n).find? (fun v => v.id == uid)
      = (users.find? (fun v => v.id == uid)).map
          (fun v => if (v.id == uidc) = true
            then { v with availableSlots := v.availableSlots + n } else v) := by
  unfold creditUnits
  apply find?_map_pred_stable
  intro a
  by_cases h : (a.id == uidc) = true <;> simp [h]

/-- Looking a payment up by reference after the conditional status update
finds the image of the payment found before (the update does not change
references). -/
theorem find?_statusMap (payments : List Payment) (ref target : String) :
    (payments.map (fun q => if (q.reference == ref) = true
        then { q with status := target } else q)).find? (fun q => q.reference == ref)
      = (payments.find? (fun q => q.reference == ref)).map
          (fun q => if (q.reference == ref) = true then { q with status := target } else q) := by
  apply find?_map_pred_stable
  intro a
  by_cases h : (a.reference == ref) = true <;> simp [h]

/-- The modelled createPayment never touches the user table. -/
theorem createPayment_users_eq (st : Store) (userId amount : Int) (meta : PaymentMetadata) :
    ((createPayment st userId amount meta).2).users = st.users := by
  unfold createPayment
  by_cases hc : (decide (amount ≤ 0) || decide (meta.slotsGranted ≤ 0)) = true
  · simp [hc]
  · simp only [Bool.not_eq_true] at hc
    cases hfind : st.users.find? (fun v => v.id == userId) with
    | none => simp [hc, hfind]
    | some u =>
        by_cases hdel : u.isDeleted = true
        · simp [hc, hfind, hdel]
        · simp only [Bool.not_eq_true] at hdel
          simp [hc, hfind, hdel]

/-- The modelled createPayment either leaves the payment table unchanged (on
any rejection) or appends exactly one PENDING row whose requested units are
positive (the validation guarantees it). -/
theorem createPayment_payments_shape (st : Store) (userId amount : Int) (meta : PaymentMetadata) :
    ((createPayment st userId amount meta).2).payments = st.payments
  ∨ (0 < meta.slotsGranted ∧ ((createPayment st userId amount meta).2).payments
        = st.payments ++ [{ id := Int.ofNat st.nextId, userId := userId,
                            reference := "ref-" ++ toString st.nextId, status := "PENDING",
                            amount := amount, slotsGranted := meta.slotsGranted }]) := by
  by_cases hc : (decide (amount ≤ 0) || decide (meta.slotsGranted ≤ 0)) = true
  · left; simp [createPayment, hc]
  · have hc' : ¬ amount ≤ 0 ∧ ¬ meta.slotsGranted ≤ 0 := by
      simpa [not_or] using hc
    have hpos : 0 < meta.slotsGranted := not_le.mp hc'.2
    cases hfind : st.users.find? (fun v => v.id == userId) with
    | none => left; simp [createPayment, hc'.1, hc'.2, hfind]
    | some u =>
        by_cases hdel : u.isDeleted = true
        · left; simp [createPayment, hc'.1, hc'.2, hfind, hdel]
        · right
          simp only [Bool.not_eq_true] at hdel
          exact ⟨hpos, by simp [createPayment, hc'.1, hc'.2, hfind, hdel]⟩

/-- purchaseSlots either rejects with the store unchanged or returns the
store produced by the delegated createPayment call. -/
theorem purchaseSlots_state (st : Store) (userId slots : Int) :
    (purchaseSlots st userId slots).2 = st
  ∨ (purchaseSlots st userId slots).2
      = (createPayment st userId (slots * 1)
          { provider := "paystack", slotsGranted := slots, paymentType := "SLOT" }).2 := by
  by_cases hu : userId ≤ 0
  · left; simp [purchaseSlots, hu]
  · by_cases hs : slots ≤ 0
    · left; simp [purchaseSlots, hu, hs]
    · cases hfind : st.users.find? (fun v => v.id == userId) with
      | none => left; simp [purchaseSlots, hu, hs, hfind]
      | some u =>
          right
          by_cases hok : (createPayment st userId slots
              { provider := "paystack", slotsGranted := slots,
                paymentType := "SLOT" }).1.success = true
          · simp [purchaseSlots, hu, hs, hfind, hok]
          · simp [purchaseSlots, hu, hs, hfind, hok]

/-- creditSlots either rejects with the store unchanged or (for positive
slots and an existing user) increments that user's availableSlots. -/
theorem creditSlots_state (st : Store) (userId slots : Int) :
    (creditSlots st userId slots).2 = st
  ∨ (0 < slots ∧ (creditSlots st userId slots).2
        = { st with users := creditUnits st.users userId slots }) := by
  by_cases hs : slots ≤ 0
  · left; simp [creditSlots, hs]
  · cases hfind : st.users.find? (fun v => v.id == userId) with
    | none => left; simp [creditSlots, hs, hfind]
    | some u =>
        right
        exact ⟨not_le.mp hs, by simp [creditSlots, hs, hfind]⟩

/-- The modelled reconcile path never throws: every call returns an
acknowledgment and a store. -/
theorem handleWebhook_total (st : Store) (ref? : Option String) (s : String) :
    ∃ r st', handleWebhook st ref? s = .ok (r, st') := by
  cases ref? with
  | none => exact ⟨_, _, rfl⟩
  | some ref =>
      unfold handleWebhook
      cases normalizeStatus s with
      | none => exact ⟨_, _, rfl⟩
      | some target =>
          simp only []
          cases st.payments.find? (fun p => p.reference == ref) with
          | none => exact ⟨_, _, rfl⟩
          | some p =>
              by_cases hp : (p.status == "PENDING") = true
              · simp [hp]
              · simp [hp]

/-- Characterization of the store a reconcile call returns: either it is the
input store (ignored status, unknown reference, already-terminal payment) or
the looked-up PENDING payment's status is set to the normalized target and,
exactly when that target is SUCCESS, the owner's counters are credited. -/
theorem handleWebhook_state (st : Store) (ref? : Option String) (s : String)
    (r : ReconcileResult) (st' : Store)
    (h : handleWebhook st ref? s = .ok (r, st')) :
    st' = st
  ∨ ∃ (ref target : String) (p : Payment),
      ref? = some ref
      ∧ normalizeStatus s = some target
      ∧ st.payments.find? (fun q => q.reference == ref) = some p
      ∧ st'.users = (if (target == "SUCCESS") = true
            then creditUnits st.users p.userId p.slotsGranted else st.users)
      ∧ st'.payments = st.payments.map (fun q => if (q.reference == ref) = true
            then { q with status := target } else q) := by
  cases ref? with
  | none =>
      left
      simp only [handleWebhook, Except.ok.injEq, Prod.mk.injEq] at h
      exact h.2.symm
  | some ref =>
      cases hn : normalizeStatus s with
      | none =>
          left
          simp only [handleWebhook, hn, Except.ok.injEq, Prod.mk.injEq] at h
          exact h.2.symm
      | some target =>
          cases hf : st.payments.find? (fun q => q.reference == ref) with
          | none =>
              left
              simp only [handleWebhook, hn, hf, Except.ok.injEq, Prod.mk.injEq] at h
              exact h.2.symm
          | some p =>
              simp only [handleWebhook, hn, hf] at h
              by_cases hp : (p.status == "PENDING") = true
              · rw [if_pos hp] at h
                simp only [Except.ok.injEq, Prod.mk.injEq] at h
                right
                exact ⟨ref, target, p, rfl, rfl, hf, by rw [← h.2], by rw [← h.2]⟩
              · left
                rw [if_neg hp] at h
                simp only [Except.ok.injEq, Prod.mk.injEq] at h
                exact h.2.symm

/-- Characterization of the store the webhook endpoint leaves: either it is
the input store (rejected signature or a throwing handler) or it is the
store a returning handler call produced. -/
theorem webhookEndpoint_state (hmac : String → String → String) (secret : Option String)
    (handler : Store → Option String → String → Except WebhookError (ReconcileResult × Store))
    (st : Store) (req : WebhookReq) :
    (webhookEndpoint hmac secret handler st req).2 = st
  ∨ ∃ r st', handler st req.reference (req.status.getD "unknown") = .ok (r, st')
      ∧ (webhookEndpoint hmac secret handler st req).2 = st' := by
  cases hb : verifySignature hmac secret (webhookHashedBody req.rawBody req.stringifiedBody)
      req.signature with
  | false => left; simp [webhookEndpoint, hb]
  | true =>
      cases hh : handler st req.reference (req.status.getD "unknown") with
      | ok pr =>
          right
          obtain ⟨r1, st1⟩ := pr
          exact ⟨r1, st1, rfl, by simp [webhookEndpoint, hb, hh]⟩
      | error e => left; simp [webhookEndpoint, hb, hh]

/-- Reconciling a PENDING payment with reported "success" finalizes the row
to SUCCESS and credits the owner in the same step. -/
theorem stepSuccess_pending (st : Store) (ref : String) (p : Payment)
    (hf : st.payments.find? (fun q => q.reference == ref) = some p)
    (hp : p.status = "PENDING") :
    stepSuccess ref st = { st with
      payments := st.payments.map (fun q => if (q.reference == ref) = true
          then { q with status := "SUCCESS" } else q),
      users := creditUnits st.users p.userId p.slotsGranted } := by
  have hpb : (p.status == "PENDING") = true := by rw [hp]; rfl
  have hn : normalizeStatus "success" = some "SUCCESS" := rfl
  unfold stepSuccess
  simp only [handleWebhook, hn, hf]
  rw [if_pos hpb]
  simp

/-- A reconcile call that finds an already-terminal payment is a no-op
success: it acknowledges without applying and returns the store unchanged. -/
theorem handleWebhook_noop_of_terminal (st : Store) (ref : String) (p : Payment)
    (hf : st.payments.find? (fun q => q.reference == ref) = some p)
    (hp : (p.status == "PENDING") = false) :
    handleWebhook st (some ref) "success"
      = .ok ({ ok := true, applied := false, unknownReference := false }, st) := by
  have hn : normalizeStatus "success" = some "SUCCESS" := rfl
  simp only [handleWebhook, hn, hf]
  rw [if_neg (by simp [hp])]

/-- Iterating a step from one of its fixed points stays there. -/
theorem iterateSuccess_fixed (ref : String) (st : Store)
    (hfix : stepSuccess ref st = st) :
    ∀ n, iterateSuccess ref n st = st := by
  intro n
  induction n with
  | zero => rfl
  | succ k ih =>
      show iterateSuccess ref k (stepSuccess ref st) = st
      rw [hfix, ih]

/-- A user lookup after a nonnegative credit of some (possibly different)
user finds a row with the same usedSlots and at least the old
availableSlots. -/
theorem find?_users_after_credit (users : List User) (uidc : Int) (n : Int) (hn : 0 ≤ n)
    (uid : Int) (u : User) (hu : users.find? (fun v => v.id == uid) = some u) :
    ∃ u', (creditUnits users uidc n).find? (fun v => v.id == uid) = some u'
      ∧ u.availableSlots ≤ u'.availableSlots ∧ u'.usedSlots = u.usedSlots := by
  rw [find?_creditUnits, hu]
  by_cases h : (u.id == uidc) = true
  · refine ⟨{ u with availableSlots := u.availableSlots + n }, ?_, ?_, rfl⟩
    · show some (if (u.id == uidc) = true
          then { u with availableSlots := u.availableSlots + n } else u) = _
      rw [if_pos h]
    · exact le_add_of_nonneg_right hn
  · refine ⟨u, ?_, le_refl _, rfl⟩
    show some (if (u.id == uidc) = true
        then { u with availableSlots := u.availableSlots + n } else u) = some u
    rw [if_neg h]

/-- The conditional status update does not change any row's requested
units, so positivity of all requested units is preserved. -/
theorem unitsPositive_statusMap (payments : List Payment) (ref target : String)
    (hWF : ∀ p ∈ payments, 0 < p.slotsGranted) :
    ∀ p ∈ payments.map (fun q => if (q.reference == ref) = true
        then { q with status := target } else q), 0 < p.slotsGranted := by
  intro p hp
  rcases List.mem_map.mp hp with ⟨q, hq, rfl⟩
  by_cases h : (q.reference == ref) = true
  · simpa [h] using hWF q hq
  · simpa [h] using hWF q hq

/-! ## Claim theorems -/

/-- C9: `verifyNotificationSignature` (PaystackService.verifySignature) is a
total boolean function — in the embedding it is a Lean function into `Bool`,
so it never throws — and it equals, for every HMAC function, secret, raw
body and header, the boolean described by the spec: false when the
server-held secret is missing (unset or empty), false when the signature
header is missing, and otherwise true exactly when the HMAC of the raw body
under the secret equals the header, so in particular false on mismatch and
true only on match. -/
theorem verifySignature_matches_spec (hmac : String → String → String)
    (secret : Option String) (rawBody : String) (sig : Option String) :
    verifySignature hmac secret rawBody sig = verifySignatureSpec hmac secret rawBody sig := by
  cases secret with
  | none => rfl
  | some s =>
      cases sig with
      | none =>
          by_cases hs : s = "" <;>
            simp [verifySignature, verifySignatureSpec, strTruthy, hs]
      | some t =>
          by_cases hs : s = "" <;> by_cases ht : t = "" <;>
            simp [verifySignature, verifySignatureSpec, strTruthy, hs, ht]

/-- C4: what the webhook path actually feeds to the HMAC.  The controller
computes `rawBody = (req as any).rawBody ?? JSON.stringify(req.body)`
(payment.controller.ts line 36) and src/src/main.ts creates the Nest
application without raw-body capture, so `req.rawBody` is undefined (`none`)
on every request and the hashed input is the re-serialized
`JSON.stringify(req.body)`.  Evaluated here at a concrete request whose raw
received bytes contain whitespace: the parsed body re-serializes to the
compact form, the code hashes that compact form, and it differs from the
bytes that actually arrived — so the HMAC is not computed over the exact raw
bytes received.  (The comparison itself, `hash === signatureHeader` embedded
as `==` in `verifySignature`, is ordinary string equality, not a
constant-time primitive; the timing aspect is outside this embedding.) -/
theorem webhookHashedBody_not_raw_bytes :
    webhookHashedBody none "\x7b\"reference\":\"R1\",\"status\":\"success\"\x7d" =
      "\x7b\"reference\":\"R1\",\"status\":\"success\"\x7d"
  ∧ "\x7b\"reference\":\"R1\",\"status\":\"success\"\x7d" ≠
      "\x7b \"reference\": \"R1\", \"status\": \"success\" \x7d" := by
  exact ⟨rfl, by decide⟩

/-- C3: the signature gate fails closed.  For every request whose body /
signature pair fails `verifySignature`, the webhook endpoint responds 400
with the store unchanged, and the payment-service handler is never invoked:
the response is the same for every handler. -/
theorem webhook_signature_gate (hmac : String → String → String) (secret : Option String)
    (handler : Store → Option String → String → Except WebhookError (ReconcileResult × Store))
    (st : Store) (req : WebhookReq)
    (h : verifySignature hmac secret (webhookHashedBody req.rawBody req.stringifiedBody)
           req.signature = false) :
    webhookEndpoint hmac secret handler st req = (400, st)
  ∧ ∀ handler2, webhookEndpoint hmac secret handler2 st req =
      webhookEndpoint hmac secret handler st req := by
  refine ⟨?_, ?_⟩
  · simp [webhookEndpoint, h]
  · intro handler2
    simp [webhookEndpoint, h]

/-- Witness for C3: a request with no signature header is rejected with 400
and an untouched store (here with the spec-modelled handler installed). -/
theorem webhook_signature_gate_witness :
    webhookEndpoint hmac0 (some "sek") handleWebhook stOneUser reqNoSig = (400, stOneUser) :=
  (webhook_signature_gate hmac0 (some "sek") handleWebhook stOneUser reqNoSig (by decide)).1

/-- Counterexample to C5 as stated: a correctly signed webhook whose
processing throws an internal error is answered with HTTP 500, not 200 — the
catch block at payment.controller.ts lines 53-55 returns
`res.status(500)`, so an internal error during processing is not absorbed
into the acknowledgment. -/
theorem webhook_500_on_thrown_error :
    verifySignature hmac0 (some "sek")
      (webhookHashedBody reqSigned.rawBody reqSigned.stringifiedBody) reqSigned.signature = true
  ∧ webhookEndpoint hmac0 (some "sek") throwingHandler stEmpty reqSigned = (500, stEmpty)
  ∧ (500 : Nat) ≠ 200 := by
  refine ⟨by decide, by decide, by decide⟩

/-- C5 (amended): for every webhook request that passes signature
verification, if the payment-service call returns (with any outcome record —
in particular the spec-modelled handler returns, never throws, on unknown
references and already-terminal payments), the endpoint responds 200 with
the handler's resulting store; if the call throws, the endpoint responds 500
with the store unchanged. -/
theorem webhook_ack_when_handler_returns (hmac : String → String → String)
    (secret : Option String)
    (handler : Store → Option String → String → Except WebhookError (ReconcileResult × Store))
    (st : Store) (req : WebhookReq)
    (hv : verifySignature hmac secret (webhookHashedBody req.rawBody req.stringifiedBody)
            req.signature = true) :
    (∀ res st', handler st req.reference (req.status.getD "unknown") = .ok (res, st') →
        webhookEndpoint hmac secret handler st req = (200, st'))
  ∧ (∀ e, handler st req.reference (req.status.getD "unknown") = .error e →
        webhookEndpoint hmac secret handler st req = (500, st))
  ∧ (∀ st0 ref? s, ∃ r st1, handleWebhook st0 ref? s = .ok (r, st1)) := by
  refine ⟨?_, ?_, ?_⟩
  · intro res st' hh
    simp [webhookEndpoint, hv, hh]
  · intro e hh
    simp [webhookEndpoint, hv, hh]
  · intro st0 ref? s
    cases ref? with
    | none => exact ⟨_, _, rfl⟩
    | some ref =>
        unfold handleWebhook
        cases normalizeStatus s with
        | none => exact ⟨_, _, rfl⟩
        | some target =>
            simp only []
            cases st0.payments.find? (fun p => p.reference == ref) with
            | none => exact ⟨_, _, rfl⟩
            | some p =>
                by_cases hp : (p.status == "PENDING") = true
                · simp [hp]
                · simp [hp]

/-- Witness for C5 (amended): a correctly signed webhook for an unknown
reference, processed by the spec-modelled handler, is acknowledged with 200
and leaves the store unchanged. -/
theorem webhook_ack_when_handler_returns_witness :
    webhookEndpoint hmac0 (some "sek") handleWebhook stEmpty reqSigned = (200, stEmpty) :=
  (webhook_ack_when_handler_returns hmac0 (some "sek") handleWebhook stEmpty reqSigned
      (by decide)).1
    { ok := true, applied := false, unknownReference := true } stEmpty (by decide)

/-- C7: a purchase request for `slots ≤ 0` is rejected by the validation at
the top of purchaseSlots with a BadRequestException (a 4xx validation error
— "Invalid userId" when the userId guard fires first, otherwise "Invalid
slots") and the store is untouched: no gateway call, no payment row; and the
modelled createPayment likewise fails any `amount ≤ 0` or
`unitsRequested ≤ 0` request with InvalidRequest and an untouched store. -/
theorem purchase_rejects_nonpositive (st : Store) (userId slots : Int) (h : slots ≤ 0) :
    ((purchaseSlots st userId slots).1 = .error (.badRequest "Invalid userId")
      ∨ (purchaseSlots st userId slots).1 = .error (.badRequest "Invalid slots"))
  ∧ (purchaseSlots st userId slots).2 = st
  ∧ (∀ (uid amount : Int) (meta : PaymentMetadata), amount ≤ 0 ∨ meta.slotsGranted ≤ 0 →
      (createPayment st uid amount meta).1.success = false
      ∧ (createPayment st uid amount meta).1.error = some "InvalidRequest"
      ∧ (createPayment st uid amount meta).2 = st) := by
  have hcp : ∀ (uid amount : Int) (meta : PaymentMetadata), amount ≤ 0 ∨ meta.slotsGranted ≤ 0 →
      (createPayment st uid amount meta).1.success = false
      ∧ (createPayment st uid amount meta).1.error = some "InvalidRequest"
      ∧ (createPayment st uid amount meta).2 = st := by
    intro uid amount meta hm
    have hcond : (decide (amount ≤ 0) || decide (meta.slotsGranted ≤ 0)) = true := by
      rcases hm with hm | hm <;> simp [hm]
    simp [createPayment, hcond]
  refine ⟨?_, ?_, hcp⟩
  · by_cases hu : userId ≤ 0
    · exact Or.inl (by simp [purchaseSlots, hu])
    · exact Or.inr (by simp [purchaseSlots, hu, h])
  · by_cases hu : userId ≤ 0
    · simp [purchaseSlots, hu]
    · simp [purchaseSlots, hu, h]

/-- Witness for C7: purchasing 0 slots for the live user is rejected with a
4xx and nothing changes, and a createPayment with amount 0 fails
InvalidRequest with nothing changed. -/
theorem purchase_rejects_nonpositive_witness :
    (((purchaseSlots stOneUser 1 0).1 = .error (.badRequest "Invalid userId")
        ∨ (purchaseSlots stOneUser 1 0).1 = .error (.badRequest "Invalid slots"))
      ∧ (purchaseSlots stOneUser 1 0).2 = stOneUser)
  ∧ ((createPayment stOneUser 1 0 metaOne).1.success = false
      ∧ (createPayment stOneUser 1 0 metaOne).1.error = some "InvalidRequest"
      ∧ (createPayment stOneUser 1 0 metaOne).2 = stOneUser) :=
  ⟨⟨(purchase_rejects_nonpositive stOneUser 1 0 (by decide)).1,
    (purchase_rejects_nonpositive stOneUser 1 0 (by decide)).2.1⟩,
   (purchase_rejects_nonpositive stOneUser 1 0 (by decide)).2.2 1 0 metaOne (Or.inl (by decide))⟩

/-- C8: payment creation rejects a userId that does not identify an
existing, active user, with no gateway call and no payment row inserted.
For a missing user, purchaseSlots itself throws NotFoundException
(UserNotFound) with the store untouched.  For a soft-deleted user,
purchaseSlots's own lookup (`findUnique` by id alone) passes, and the
rejection comes from the modelled createPayment's active-user check, which
fails with the UserNotFound variant and touches nothing; purchaseSlots then
surfaces that failed creation as its BadRequestException wrapper. -/
theorem purchase_user_not_found (st : Store) (userId slots : Int)
    (hu : 0 < userId) (hs : 0 < slots) :
    (st.users.find? (fun v => v.id == userId) = none →
        purchaseSlots st userId slots = (.error (.notFound "User not found"), st))
  ∧ (∀ u, st.users.find? (fun v => v.id == userId) = some u → u.isDeleted = true →
        (createPayment st userId (slots * 1)
            { provider := "paystack", slotsGranted := slots, paymentType := "SLOT" }).1
          = { success := false, error := some "UserNotFound",
              providerReference := none, authorizationUrl := none }
        ∧ (createPayment st userId (slots * 1)
            { provider := "paystack", slotsGranted := slots, paymentType := "SLOT" }).2 = st
        ∧ (purchaseSlots st userId slots).1 = .error (.badRequest "Failed to create payment")
        ∧ (purchaseSlots st userId slots).2 = st) := by
  have hu' : ¬ userId ≤ 0 := not_le.mpr hu
  have hs' : ¬ slots ≤ 0 := not_le.mpr hs
  have hcond : (decide (slots * 1 ≤ 0) || decide ((1 : Int) * slots ≤ 0)) = false := by
    simp [mul_one, one_mul, hs']
  constructor
  · intro hfind
    simp [purchaseSlots, hu', hs', hfind]
  · intro u hfind hdel
    have hcp : createPayment st userId (slots * 1)
        { provider := "paystack", slotsGranted := slots, paymentType := "SLOT" }
        = ({ success := false, error := some "UserNotFound",
             providerReference := none, authorizationUrl := none }, st) := by
      simp [createPayment, mul_one, hs', hfind, hdel]
    have hcp' : createPayment st userId slots
        { provider := "paystack", slotsGranted := slots, paymentType := "SLOT" }
        = ({ success := false, error := some "UserNotFound",
             providerReference := none, authorizationUrl := none }, st) := by
      rw [← hcp, mul_one]
    refine ⟨by rw [hcp], by rw [hcp], ?_, ?_⟩
    · simp [purchaseSlots, hu', hs', hfind, hcp']
    · simp [purchaseSlots, hu', hs', hfind, hcp']

/-- Witness for C8: a missing user (empty store) yields the NotFound
rejection with nothing changed, and a purchase for the soft-deleted user 3
is rejected through the modelled createPayment UserNotFound check with the
store untouched. -/
theorem purchase_user_not_found_witness :
    purchaseSlots stEmpty 1 1 = (.error (.notFound "User not found"), stEmpty)
  ∧ (createPayment stDeletedUser 3 (2 * 1)
        { provider := "paystack", slotsGranted := 2, paymentType := "SLOT" }).1
      = { success := false, error := some "UserNotFound",
          providerReference := none, authorizationUrl := none }
  ∧ (purchaseSlots stDeletedUser 3 2).1 = .error (.badRequest "Failed to create payment")
  ∧ (purchaseSlots stDeletedUser 3 2).2 = stDeletedUser :=
  ⟨(purchase_user_not_found stEmpty 1 1 (by decide) (by decide)).1 (by decide),
   ((purchase_user_not_found stDeletedUser 3 2 (by decide) (by decide)).2
      { id := 3, availableSlots := 0, usedSlots := 0, isDeleted := true }
      (by decide) (by decide)).1,
   ((purchase_user_not_found stDeletedUser 3 2 (by decide) (by decide)).2
      { id := 3, availableSlots := 0, usedSlots := 0, isDeleted := true }
      (by decide) (by decide)).2.2.1,
   ((purchase_user_not_found stDeletedUser 3 2 (by decide) (by decide)).2
      { id := 3, availableSlots := 0, usedSlots := 0, isDeleted := true }
      (by decide) (by decide)).2.2.2⟩

/-- C10: for every payment found by getPaymentStatus, the returned record is
the stored row together with flags computed from the lowercased status:
isCompleted iff it contains "success", isPending iff it equals "pending"
exactly, isFailed iff it contains "fail"; a stored "PENDING" status yields
(false, true, false) and the unrecognized status "ABANDONED" yields all
three false. -/
theorem getPaymentStatus_flags (st : Store) (pid : Int) (p : Payment)
    (h : st.payments.find? (fun q => q.id == pid) = some p) :
    getPaymentStatus st pid = .ok
      { id := p.id, status := p.status, amount := p.amount, slotsGranted := p.slotsGranted,
        isCompleted := jsIncludes (jsToLower p.status) "success",
        isPending := jsToLower p.status == "pending",
        isFailed := jsIncludes (jsToLower p.status) "fail" }
  ∧ (p.status = "PENDING" →
      getPaymentStatus st pid = .ok
        { id := p.id, status := p.status, amount := p.amount, slotsGranted := p.slotsGranted,
          isCompleted := false, isPending := true, isFailed := false })
  ∧ (p.status = "ABANDONED" →
      getPaymentStatus st pid = .ok
        { id := p.id, status := p.status, amount := p.amount, slotsGranted := p.slotsGranted,
          isCompleted := false, isPending := false, isFailed := false }) := by
  have hmain : getPaymentStatus st pid = .ok
      { id := p.id, status := p.status, amount := p.amount, slotsGranted := p.slotsGranted,
        isCompleted := jsIncludes (jsToLower p.status) "success",
        isPending := jsToLower p.status == "pending",
        isFailed := jsIncludes (jsToLower p.status) "fail" } := by
    simp [getPaymentStatus, h]
  refine ⟨hmain, ?_, ?_⟩
  · intro hp
    rw [hmain, hp]
    have h1 : jsIncludes (jsToLower "PENDING") "success" = false := by decide
    have h2 : (jsToLower "PENDING" == "pending") = true := by decide
    have h3 : jsIncludes (jsToLower "PENDING") "fail" = false := by decide
    rw [h1, h2, h3]
  · intro hp
    rw [hmain, hp]
    have h1 : jsIncludes (jsToLower "ABANDONED") "success" = false := by decide
    have h2 : (jsToLower "ABANDONED" == "pending") = false := by decide
    have h3 : jsIncludes (jsToLower "ABANDONED") "fail" = false := by decide
    rw [h1, h2, h3]

/-- Witness for C10: reading the PENDING payment of the fixture store yields
isCompleted = false, isPending = true, isFailed = false. -/
theorem getPaymentStatus_flags_witness :
    getPaymentStatus stPending 0 = .ok
      { id := 0, status := "PENDING", amount := 2, slotsGranted := 2,
        isCompleted := false, isPending := true, isFailed := false } :=
  (getPaymentStatus_flags stPending 0
      { id := 0, userId := 1, reference := "R1", status := "PENDING",
        amount := 2, slotsGranted := 2 } (by decide)).2.1 rfl

/-- Counterexample to C6 as stated: its second clause says only a reconcile
with confirmed SUCCESS may change availableUnits, but SlotService.creditSlots
(the admin/test `POST /slots/credit` route) changes user 7's availableSlots
from 0 to 3 in a store that contains no payment at all before or after — no
reconcile and no SUCCESS involved. -/
theorem creditSlots_changes_units_outside_reconcile :
    stNoPayments.users.find? (fun v => v.id == 7)
      = some { id := 7, availableSlots := 0, usedSlots := 0, isDeleted := false }
  ∧ (creditSlots stNoPayments 7 3).2.users.find? (fun v => v.id == 7)
      = some { id := 7, availableSlots := 3, usedSlots := 0, isDeleted := false }
  ∧ stNoPayments.payments = []
  ∧ (creditSlots stNoPayments 7 3).2.payments = [] := by decide

/-- C6 (amended): the payment-creation path leaves every user row — hence
availableSlots and usedSlots — unchanged: purchaseSlots and the modelled
createPayment return stores with the user table equal to the input one; and
apart from the direct admin creditSlots operation, a user table change can
come only from a reconcile that applied a confirmed SUCCESS: whenever
handleWebhook returns a store with a different user table, the reported
status normalized to SUCCESS and the call applied a transition. -/
theorem payment_creation_frame (st : Store) :
    (∀ (userId slots : Int), ((purchaseSlots st userId slots).2).users = st.users)
  ∧ (∀ (userId amount : Int) (meta : PaymentMetadata),
        ((createPayment st userId amount meta).2).users = st.users)
  ∧ (∀ (ref? : Option String) (s : String) (r : ReconcileResult) (st' : Store),
        handleWebhook st ref? s = .ok (r, st') → st'.users ≠ st.users →
        normalizeStatus s = some "SUCCESS" ∧ r.applied = true) := by
  have hcpf : ∀ (userId amount : Int) (meta : PaymentMetadata),
      ((createPayment st userId amount meta).2).users = st.users := by
    intro userId amount meta
    unfold createPayment
    by_cases hc : (decide (amount ≤ 0) || decide (meta.slotsGranted ≤ 0)) = true
    · simp [hc]
    · simp only [Bool.not_eq_true] at hc
      cases hfind : st.users.find? (fun u => u.id == userId) with
      | none => simp [hc, hfind]
      | some u =>
          by_cases hdel : u.isDeleted = true
          · simp [hc, hfind, hdel]
          · simp only [Bool.not_eq_true] at hdel
            simp [hc, hfind, hdel]
  refine ⟨?_, hcpf, ?_⟩
  · intro userId slots
    by_cases hu : userId ≤ 0
    · simp [purchaseSlots, hu]
    · by_cases hs : slots ≤ 0
      · simp [purchaseSlots, hu, hs]
      · cases hfind : st.users.find? (fun u => u.id == userId) with
        | none => simp [purchaseSlots, hu, hs, hfind]
        | some u =>
            by_cases hok : (createPayment st userId slots
                { provider := "paystack", slotsGranted := slots,
                  paymentType := "SLOT" }).1.success = true
            · simp [purchaseSlots, hu, hs, hfind, hok, hcpf]
            · simp [purchaseSlots, hu, hs, hfind, hok, hcpf]
  · intro ref? s r st' hok hne
    cases ref? with
    | none =>
        simp only [handleWebhook, Except.ok.injEq, Prod.mk.injEq] at hok
        exact absurd (by rw [hok.2]) hne
    | some ref =>
        cases hn : normalizeStatus s with
        | none =>
            simp only [handleWebhook, hn, Except.ok.injEq, Prod.mk.injEq] at hok
            exact absurd (by rw [← hok.2]) hne
        | some target =>
            cases hf : st.payments.find? (fun p => p.reference == ref) with
            | none =>
                simp only [handleWebhook, hn, hf, Except.ok.injEq, Prod.mk.injEq] at hok
                exact absurd (by rw [← hok.2]) hne
            | some p =>
                simp only [handleWebhook, hn, hf] at hok
                by_cases hp : (p.status == "PENDING") = true
                · rw [if_pos hp] at hok
                  simp only [Except.ok.injEq, Prod.mk.injEq] at hok
                  by_cases ht : (target == "SUCCESS") = true
                  · have hts : target = "SUCCESS" := eq_of_beq ht
                    refine ⟨by rw [hts], ?_⟩
                    rw [← hok.1]
                  · exfalso
                    apply hne
                    rw [← hok.2]
                    simp [ht]
                · rw [if_neg hp] at hok
                  simp only [Except.ok.injEq, Prod.mk.injEq] at hok
                  exact absurd (by rw [← hok.2]) hne

/-- Witness for C6 (amended): purchasing a slot on the pending-payment store
leaves the user table unchanged, and the successful reconcile of "R1" on
that store (which does change the user table: 5 → 7 slots) indeed reports a
normalized SUCCESS that was applied. -/
theorem payment_creation_frame_witness :
    ((purchaseSlots stPending 1 1).2).users = stPending.users
  ∧ (normalizeStatus "success" = some "SUCCESS"
      ∧ ({ ok := true, applied := true, unknownReference := false } : ReconcileResult).applied
          = true) :=
  ⟨(payment_creation_frame stPending).1 1 1,
   (payment_creation_frame stPending).2.2 (some "R1") "success"
      { ok := true, applied := true, unknownReference := false } stSettled
      (by decide) (by decide)⟩

/-- C1: idempotent settlement.  For a store whose payment with provider
reference `ref` is PENDING and owned by user `p.userId`, delivering the
success notification once finalizes the row to SUCCESS and credits the
owner's availableSlots by exactly the payment's requested units; delivering
it N ≥ 1 times yields exactly the same store as delivering it once (so the
credit happens exactly once and the status stays SUCCESS from the first call
onward); and every call after the first returns the no-op acknowledgment
`ok = true, applied = false` — a success, not an error. -/
theorem reconcile_idempotent (st : Store) (ref : String) (p : Payment) (u : User) (n : Nat)
    (hf : st.payments.find? (fun q => q.reference == ref) = some p)
    (hst : p.status = "PENDING")
    (hu : st.users.find? (fun v => v.id == p.userId) = some u) :
    ((stepSuccess ref st).payments.find? (fun q => q.reference == ref)).map Payment.status
        = some "SUCCESS"
  ∧ ((stepSuccess ref st).users.find? (fun v => v.id == p.userId)).map User.availableSlots
        = some (u.availableSlots + p.slotsGranted)
  ∧ iterateSuccess ref (n + 1) st = stepSuccess ref st
  ∧ handleWebhook (stepSuccess ref st) (some ref) "success"
        = .ok ({ ok := true, applied := false, unknownReference := false }, stepSuccess ref st) := by
  have hstep := stepSuccess_pending st ref p hf hst
  have hrefp0 := List.find?_some hf
  have hrefp : (p.reference == ref) = true := hrefp0
  have hfind1 : (stepSuccess ref st).payments.find? (fun q => q.reference == ref)
      = some { p with status := "SUCCESS" } := by
    rw [hstep]
    show (st.payments.map (fun q => if (q.reference == ref) = true
        then { q with status := "SUCCESS" } else q)).find? (fun q => q.reference == ref) = _
    rw [find?_statusMap, hf]
    show some (if (p.reference == ref) = true then { p with status := "SUCCESS" } else p) = _
    rw [if_pos hrefp]
  have hnoop : handleWebhook (stepSuccess ref st) (some ref) "success"
      = .ok ({ ok := true, applied := false, unknownReference := false }, stepSuccess ref st) :=
    handleWebhook_noop_of_terminal (stepSuccess ref st) ref { p with status := "SUCCESS" }
      hfind1 rfl
  have hgen : ∀ s1 : Store, handleWebhook s1 (some ref) "success"
      = .ok ({ ok := true, applied := false, unknownReference := false }, s1) →
      stepSuccess ref s1 = s1 := by
    intro s1 h1
    unfold stepSuccess
    rw [h1]
  have hfix : stepSuccess ref (stepSuccess ref st) = stepSuccess ref st :=
    hgen (stepSuccess ref st) hnoop
  refine ⟨by rw [hfind1]; rfl, ?_, ?_, hnoop⟩
  · rw [hstep]
    have hid0 := List.find?_some hu
    have hid : (u.id == p.userId) = true := hid0
    show ((creditUnits st.users p.userId p.slotsGranted).find?
        (fun v => v.id == p.userId)).map User.availableSlots = _
    rw [find?_creditUnits, hu]
    show some (if (u.id == p.userId) = true
        then { u with availableSlots := u.availableSlots + p.slotsGranted } else u).availableSlots
      = _
    rw [if_pos hid]
  · show iterateSuccess ref n (stepSuccess ref st) = stepSuccess ref st
    exact iterateSuccess_fixed ref (stepSuccess ref st) hfix n

/-- Witness for C1: on the fixture store with PENDING payment "R1" (2 units,
user 1 holding 5 slots), three deliveries of the success webhook equal one
delivery, which sets the row to SUCCESS and the balance to exactly 7. -/
theorem reconcile_idempotent_witness :
    ((stepSuccess "R1" stPending).payments.find? (fun q => q.reference == "R1")).map
        Payment.status = some "SUCCESS"
  ∧ ((stepSuccess "R1" stPending).users.find? (fun v => v.id == (1 : Int))).map
        User.availableSlots = some (5 + 2)
  ∧ iterateSuccess "R1" (2 + 1) stPending = stepSuccess "R1" stPending
  ∧ handleWebhook (stepSuccess "R1" stPending) (some "R1") "success"
        = .ok ({ ok := true, applied := false, unknownReference := false },
               stepSuccess "R1" stPending) :=
  reconcile_idempotent stPending "R1"
    { id := 0, userId := 1, reference := "R1", status := "PENDING", amount := 2, slotsGranted := 2 }
    { id := 1, availableSlots := 5, usedSlots := 0, isDeleted := false }
    2 (by decide) rfl (by decide)

/-- Counterexample to C2 as stated: the direct credit endpoint
(`POST /slots/credit` → SlotService.creditSlots) increases user 1's
availableSlots from 5 to 10 in a store that contains no PaymentIntent at all
— before or after — so the increase is not associated with any successful,
previously-uncredited PaymentIntent. -/
theorem creditSlots_increases_units_without_payment :
    stOneUser.payments = []
  ∧ (creditSlots stOneUser 1 5).2.payments = []
  ∧ stOneUser.users.find? (fun v => v.id == 1)
      = some { id := 1, availableSlots := 5, usedSlots := 0, isDeleted := false }
  ∧ (creditSlots stOneUser 1 5).2.users.find? (fun v => v.id == 1)
      = some { id := 1, availableSlots := 10, usedSlots := 0, isDeleted := false } := by
  decide

/-- C2 (amended): for every operation of this subsystem (purchase, direct
admin credit, webhook with the modelled payment service, payment creation,
reads), on a store whose payment rows all request positive units (an
invariant the subsystem maintains, as the second conjunct shows), no user's
availableSlots decreases and no user's usedSlots changes.  Increases happen
only through the reconcile credit of a SUCCESS settlement or through the
direct admin creditSlots endpoint, which involves no payment. -/
theorem availableSlots_monotone (hmac : String → String → String) (secret : Option String)
    (st : Store) (op : SubsysOp)
    (hWF : ∀ p ∈ st.payments, 0 < p.slotsGranted)
    (uid : Int) (u : User)
    (hu : st.users.find? (fun v => v.id == uid) = some u) :
    (∃ u', (applyOp hmac secret st op).users.find? (fun v => v.id == uid) = some u'
        ∧ u.availableSlots ≤ u'.availableSlots ∧ u'.usedSlots = u.usedSlots)
  ∧ (∀ p ∈ (applyOp hmac secret st op).payments, 0 < p.slotsGranted) := by
  have hkeep : ∀ st2 : Store, st2 = st →
      ((∃ u', st2.users.find? (fun v => v.id == uid) = some u'
          ∧ u.availableSlots ≤ u'.availableSlots ∧ u'.usedSlots = u.usedSlots)
        ∧ ∀ p ∈ st2.payments, 0 < p.slotsGranted) := by
    intro st2 h2
    subst h2
    exact ⟨⟨u, hu, le_refl _, rfl⟩, hWF⟩
  have hcp : ∀ (uc ac : Int) (mc : PaymentMetadata),
      ((∃ u', ((createPayment st uc ac mc).2).users.find? (fun v => v.id == uid) = some u'
          ∧ u.availableSlots ≤ u'.availableSlots ∧ u'.usedSlots = u.usedSlots)
        ∧ ∀ p ∈ ((createPayment st uc ac mc).2).payments, 0 < p.slotsGranted) := by
    intro uc ac mc
    constructor
    · rw [createPayment_users_eq]
      exact ⟨u, hu, le_refl _, rfl⟩
    · rcases createPayment_payments_shape st uc ac mc with hp | ⟨hpos, hp⟩
      · rw [hp]; exact hWF
      · rw [hp]
        intro q hq
        rcases List.mem_append.mp hq with hm | hm
        · exact hWF q hm
        · rcases List.mem_singleton.mp hm with rfl
          simpa using hpos
  cases op with
  | readSlots ur => exact hkeep st rfl
  | readPaymentStatus pr => exact hkeep st rfl
  | credit uc sc =>
      show ((∃ u', ((creditSlots st uc sc).2).users.find? (fun v => v.id == uid) = some u'
          ∧ u.availableSlots ≤ u'.availableSlots ∧ u'.usedSlots = u.usedSlots)
        ∧ ∀ p ∈ ((creditSlots st uc sc).2).payments, 0 < p.slotsGranted)
      rcases creditSlots_state st uc sc with h | ⟨hpos, h⟩
      · exact hkeep _ h
      · rw [h]
        exact ⟨find?_users_after_credit st.users uc sc (le_of_lt hpos) uid u hu, hWF⟩
  | purchase up sp =>
      show ((∃ u', ((purchaseSlots st up sp).2).users.find? (fun v => v.id == uid) = some u'
          ∧ u.availableSlots ≤ u'.availableSlots ∧ u'.usedSlots = u.usedSlots)
        ∧ ∀ p ∈ ((purchaseSlots st up sp).2).payments, 0 < p.slotsGranted)
      rcases purchaseSlots_state st up sp with h | h
      · exact hkeep _ h
      · rw [h]
        exact hcp up (sp * 1) { provider := "paystack", slotsGranted := sp, paymentType := "SLOT" }
  | createPay uc ac mc =>
      exact hcp uc ac mc
  | webhook req =>
      show ((∃ u', ((webhookEndpoint hmac secret handleWebhook st req).2).users.find?
            (fun v => v.id == uid) = some u'
          ∧ u.availableSlots ≤ u'.availableSlots ∧ u'.usedSlots = u.usedSlots)
        ∧ ∀ p ∈ ((webhookEndpoint hmac secret handleWebhook st req).2).payments,
            0 < p.slotsGranted)
      rcases webhookEndpoint_state hmac secret handleWebhook st req with h | ⟨r, st', hh, h⟩
      · exact hkeep _ h
      · rw [h]
        rcases handleWebhook_state st req.reference (req.status.getD "unknown") r st' hh
          with h2 | ⟨ref, target, p, _, _, hfp, husers, hpay⟩
        · exact hkeep _ h2
        · constructor
          · rw [husers]
            by_cases ht : (target == "SUCCESS") = true
            · rw [if_pos ht]
              have hpos : 0 < p.slotsGranted := hWF p (List.mem_of_find?_eq_some hfp)
              exact find?_users_after_credit st.users p.userId p.slotsGranted
                (le_of_lt hpos) uid u hu
            · rw [if_neg ht]
              exact ⟨u, hu, le_refl _, rfl⟩
          · rw [hpay]
            exact unitsPositive_statusMap st.payments ref target hWF

/-- Witness for C2 (amended): crediting 5 slots to user 1 of the one-user
store (which has no payments, so positivity of payment units holds
vacuously) yields a row with at least the old 5 available slots and
unchanged usedSlots, and the resulting store still has only positive-unit
payment rows. -/
theorem availableSlots_monotone_witness :
    (∃ u', (applyOp hmac0 (some "sek") stOneUser (.credit 1 5)).users.find?
          (fun v => v.id == (1 : Int)) = some u'
        ∧ user1.availableSlots ≤ u'.availableSlots
        ∧ u'.usedSlots = user1.usedSlots)
  ∧ (∀ p ∈ (applyOp hmac0 (some "sek") stOneUser (.credit 1 5)).payments,
        0 < p.slotsGranted) :=
  availableSlots_monotone hmac0 (some "sek") stOneUser (.credit 1 5)
    (by intro p hp; simp [stOneUser] at hp) 1 user1 (by decide)

end Sellr
